import Mathlib

/-!
Verification of the MedBraille pipeline (src/app.py).

Shallow embedding conventions:
* Python strings are sequences of code points, modelled as `List Char`
  (`PyStr`).  Python `text[:500]` is `List.take 500`, `str.lower` is
  `Char.toLower` mapped over the list (all inputs of interest are ASCII).
* Every call into an external library (PyMuPDF `fitz`, `pytesseract` OCR,
  the transformers summarization model, `louis`, `gTTS`) is modelled as an
  oracle supplied in an environment record: the oracle value is the outcome
  that the library call would have, `Except.ok v` for a normal return and
  `Except.error msg` for a raised exception carrying `str(e)`.
* `st.error` messages are collected in a `List String` log.
* The filesystem state relevant to a request is two booleans: whether the
  temporary uploaded document still exists and whether the audio artifact
  file exists.
-/

/-- Python string as a list of code points. -/
abbrev PyStr := List Char

/-- Word characters per flashtext: ASCII letters, digits and underscore
(flashtext `non_word_boundaries = digits + ascii_letters + underscore`). -/
def isWordChar (c : Char) : Bool :=
  c.isAlpha || c.isDigit || c = '_'

/-- Split a character list into maximal runs of characters that agree on
`isWordChar` (word runs and separator runs, in order, concatenation gives
back the input).  This is the token structure flashtext scanning induces on
a sentence when every keyword is a single word. -/
def tokenize : List Char → List (List Char)
  | [] => []
  | [c] => [[c]]
  | c :: d :: rest =>
    if isWordChar c = isWordChar d then
      match tokenize (d :: rest) with
      | [] => [[c]]
      | t :: ts => (c :: t) :: ts
    else
      [c] :: tokenize (d :: rest)

/-- Python `str.lower` on a code-point list (ASCII inputs). -/
def lowerWord (w : PyStr) : PyStr := w.map Char.toLower

/-- The keyword table built by `KeywordProcessor.add_keywords_from_list`:
each keyword is stored under its lowercased form (the processor is
case-insensitive by default) with itself as the clean name. -/
def keywordMapping (vocab : List PyStr) : List (PyStr × PyStr) :=
  vocab.map (fun kw => (lowerWord kw, kw))

/-- Replacement of one token: a word run whose lowercased form is a stored
keyword is replaced by the stored clean name, anything else is kept with its
original casing (flashtext builds non-matching output from the original
sentence characters). -/
def replaceTok (mapping : List (PyStr × PyStr)) (t : PyStr) : PyStr :=
  match mapping.lookup (lowerWord t) with
  | some clean => clean
  | none => t

/-- flashtext `KeywordProcessor.replace_keywords` specialised to a
vocabulary of single-word keywords: every maximal word run equal
(case-insensitively) to a keyword is replaced by the clean name registered
for it, all other text is unchanged. -/
def replace_keywords (vocab : List PyStr) (text : PyStr) : PyStr :=
  ((tokenize text).map (replaceTok (keywordMapping vocab))).flatten

/-- MEDICAL_TERMS from src/app.py lines 26-27. -/
def MEDICAL_TERMS : List PyStr :=
  ["cancer", "diabetes", "hypertension", "covid", "allergy",
   "cholesterol", "diagnosis", "symptom", "treatment", "dose"].map String.data

/-- highlight_medical_terms (src/app.py lines 64-68): builds a
KeywordProcessor over MEDICAL_TERMS via add_keywords_from_list and returns
replace_keywords of the input.  Note that add_keywords_from_list registers
each term with itself as clean name, so a matched term is replaced by the
lowercased term itself and no emphasis markup is introduced. -/
def highlight_medical_terms (text : PyStr) : PyStr :=
  replace_keywords MEDICAL_TERMS text

/-- Whether the flashtext matcher finds any vocabulary term in the text. -/
def hasVocabTerm (vocab : List PyStr) (text : PyStr) : Bool :=
  (tokenize text).any (fun t => ((keywordMapping vocab).lookup (lowerWord t)).isSome)

/-- extract_text_from_pdf (src/app.py lines 30-45).  `fitz` is the outcome
of the structural extraction (`fitz.open` plus the page loop), `ocr` the
outcome of `convert_from_path` plus per-page `pytesseract`.  In the scanned
branch an exception is caught, an OCR error message is shown and the empty
string is returned; in the non-scanned branch there is no try/except, so a
raised exception propagates to the caller (first component `Except.error`).
The second component is the list of `st.error` messages shown. -/
def extract_text_from_pdf (fitz ocr : Except String PyStr) (is_scanned : Bool) :
    Except String PyStr × List String :=
  if is_scanned then
    match ocr with
    | Except.ok t => (Except.ok t, [])
    | Except.error e => (Except.ok [], ["OCR Error: " ++ e])
  else
    (fitz, [])

/-- summarize_text (src/app.py lines 47-54).  `modelF` is the outcome of
building the transformers pipeline and running it on the text; on success
its summary text is returned, on any exception an error is shown and the
first 500 characters of the input are returned. -/
def summarize_text (modelF : PyStr → Except String PyStr) (text : PyStr) :
    PyStr × List String :=
  match modelF text with
  | Except.ok s => (s, [])
  | Except.error e => (text.take 500, ["Summarization Error: " ++ e])

/-- convert_to_braille (src/app.py lines 56-62).  `louisF` is the outcome of
`louis.translateString` on the text; on an exception an error is shown and
the empty string returned. -/
def convert_to_braille (louisF : PyStr → Except String PyStr) (text : PyStr) :
    PyStr × List String :=
  match louisF text with
  | Except.ok b => (b, [])
  | Except.error e => ([], ["Braille Conversion Error: " ++ e])

/-- The default value of the filename parameter of text_to_speech. -/
def DEFAULT_AUDIO_FILENAME : PyStr := "summary.mp3".data

/-- text_to_speech (src/app.py lines 70-78).  `gttsF` is the outcome of
constructing gTTS on the text and saving it to the filename; on success the
filename is returned (and the file now exists on disk), on an exception an
error is shown and None is returned. -/
def text_to_speech (gttsF : PyStr → Except String Unit) (text filename : PyStr) :
    Option PyStr × List String :=
  match gttsF text with
  | Except.ok _ => (some filename, [])
  | Except.error e => (none, ["Audio Generation Error: " ++ e])

/-- Oracles for the five external capabilities used by one request. -/
structure Env where
  fitz : Except String PyStr
  ocr : Except String PyStr
  model : PyStr → Except String PyStr
  louisTr : PyStr → Except String PyStr
  gtts : PyStr → Except String Unit

/-- Python exceptions that can reach the top of the request script.
libErr carries the message of an exception raised by an external library
call (a stage exception); stopException is raised by st.stop (it subclasses
Exception in Streamlit, so the module-level handler catches it);
fileNotFound and nameError arise inside the cleanup (finally) block
itself. -/
inductive PyExc where
  | libErr (msg : String)
  | stopException
  | fileNotFound (path : String)
  | nameError (vname : String)
deriving DecidableEq

/-- The five stage functions, used to record which ones a run invoked. -/
inductive Stage where
  | extractS
  | summarizeS
  | highlightS
  | brailleS
  | ttsS
deriving DecidableEq

/-- Terminal state of a request: Done when the display block completed,
Failed otherwise. -/
inductive PipeState where
  | failed
  | done
deriving DecidableEq

/-- Observable outcome of one request of the module-level script
(src/app.py lines 104-169). -/
structure RunResult where
  calls : List Stage
  messages : List String
  displayed : Option (PyStr × PyStr × Option PyStr)
  uncaught : Option PyExc
  audioCreated : Bool
  tmpExists : Bool
  audioExists : Bool
  final : PipeState
deriving DecidableEq

/-- The module-level processing pipeline (src/app.py lines 104-169),
parameterised by the highlight vocabulary.  The temporary uploaded file
exists when the body starts.  Control flow of the source:

* extraction raises (non-scanned branch): the exception is caught by the
  module-level `except Exception`, which shows a processing-failed message;
  the finally block then unlinks the temporary file and evaluates
  `audio_file`, a name never bound on this path, so a NameError propagates
  uncaught.
* extracted text empty: an error is shown, the temporary file is unlinked,
  and st.stop raises StopException, which the module-level handler catches
  (it subclasses Exception) and reports with an empty message; the finally
  block then unlinks the already-deleted temporary file, so a
  FileNotFoundError propagates uncaught.
* otherwise all four remaining stages run with their internal fallbacks, the
  results are displayed, and the finally block deletes the temporary file
  and, when text_to_speech returned a filename, the audio artifact. -/
def runPipelineWith (vocab : List PyStr) (env : Env) (is_scanned : Bool) : RunResult :=
  match extract_text_from_pdf env.fitz env.ocr is_scanned with
  | (Except.error e, log1) =>
    { calls := [Stage.extractS]
      messages := log1 ++ ["❌ Processing failed: " ++ e]
      displayed := none
      uncaught := some (PyExc.nameError "audio_file")
      audioCreated := false
      tmpExists := false
      audioExists := false
      final := PipeState.failed }
  | (Except.ok raw_text, log1) =>
    if raw_text.isEmpty then
      { calls := [Stage.extractS]
        messages := log1 ++ ["Failed to extract text from document",
                             "❌ Processing failed: "]
        displayed := none
        uncaught := some (PyExc.fileNotFound "tmp")
        audioCreated := false
        tmpExists := false
        audioExists := false
        final := PipeState.failed }
    else
      let sm := summarize_text env.model raw_text
      let summary := sm.1
      let highlighted := replace_keywords vocab summary
      let br := convert_to_braille env.louisTr summary
      let au := text_to_speech env.gtts summary DEFAULT_AUDIO_FILENAME
      { calls := [Stage.extractS, Stage.summarizeS, Stage.highlightS,
                  Stage.brailleS, Stage.ttsS]
        messages := log1 ++ sm.2 ++ br.2 ++ au.2
        displayed := some (highlighted, br.1, au.1)
        uncaught := none
        audioCreated := au.1.isSome
        tmpExists := false
        audioExists := false
        final := PipeState.done }

/-- The pipeline as shipped, with the global MEDICAL_TERMS vocabulary. -/
def runPipeline (env : Env) (is_scanned : Bool) : RunResult :=
  runPipelineWith MEDICAL_TERMS env is_scanned

/-- Concrete environment: extraction succeeds with a short text, all three
downstream oracles fail. -/
def envAllFail : Env :=
  { fitz := Except.ok "hello".data
    ocr := Except.ok []
    model := fun _ => Except.error "down"
    louisTr := fun _ => Except.error "no table"
    gtts := fun _ => Except.error "no net" }

/-- Concrete environment: extraction yields the empty string. -/
def envEmptyText : Env :=
  { fitz := Except.ok []
    ocr := Except.ok []
    model := fun t => Except.ok t
    louisTr := fun t => Except.ok t
    gtts := fun _ => Except.ok () }

/-- Concrete environment: every oracle succeeds. -/
def envAllOk : Env :=
  { fitz := Except.ok "hello".data
    ocr := Except.ok "hello".data
    model := fun _ => Except.ok "sum".data
    louisTr := fun t => Except.ok t
    gtts := fun _ => Except.ok () }

theorem tokenize_ne_nil (c : Char) (l : List Char) : tokenize (c :: l) ≠ [] := by
  cases l with
  | nil => simp [tokenize]
  | cons d rest =>
    simp only [tokenize]
    split
    · split <;> simp
    · simp

theorem flatten_tokenize (l : List Char) : (tokenize l).flatten = l := by
  induction l with
  | nil => simp [tokenize]
  | cons c tail ih =>
    cases tail with
    | nil => simp [tokenize]
    | cons d rest =>
      simp only [tokenize]
      split
      · cases htok : tokenize (d :: rest) with
        | nil => exact absurd htok (tokenize_ne_nil d rest)
        | cons t ts =>
          rw [htok] at ih
          simp only [List.flatten_cons, List.cons_append]
          simp only [List.flatten_cons] at ih
          rw [ih]
      · simp only [List.flatten_cons, List.singleton_append]
        rw [ih]

theorem map_eq_self_of_fixed {α : Type} (f : α → α) (l : List α)
    (h : ∀ x ∈ l, f x = x) : l.map f = l := by
  induction l with
  | nil => rfl
  | cons a t ih =>
    simp only [List.map_cons]
    rw [h a (by simp), ih (fun x hx => h x (by simp [hx]))]

theorem replace_keywords_of_no_term (vocab : List PyStr) (x : PyStr)
    (h : hasVocabTerm vocab x = false) : replace_keywords vocab x = x := by
  unfold replace_keywords
  rw [map_eq_self_of_fixed, flatten_tokenize]
  intro t ht
  unfold hasVocabTerm at h
  rw [List.any_eq_false] at h
  have hnone := h t ht
  unfold replaceTok
  cases hl : ((keywordMapping vocab).lookup (lowerWord t)) with
  | none => rfl
  | some clean => rw [hl] at hnone; simp at hnone

/-- C9: for every string x in which the matcher finds no term of the fixed
medical vocabulary, highlighting is idempotent:
highlight_medical_terms (highlight_medical_terms x) = highlight_medical_terms x. -/
theorem highlight_idempotent_no_terms (x : PyStr)
    (h : hasVocabTerm MEDICAL_TERMS x = false) :
    highlight_medical_terms (highlight_medical_terms x) = highlight_medical_terms x := by
  unfold highlight_medical_terms
  rw [replace_keywords_of_no_term MEDICAL_TERMS x h,
      replace_keywords_of_no_term MEDICAL_TERMS x h]

/-- Witness for C9 at the concrete vocabulary-free string "Hello world.". -/
theorem highlight_idempotent_no_terms_witness :
    hasVocabTerm MEDICAL_TERMS "Hello world.".data = false ∧
    highlight_medical_terms (highlight_medical_terms "Hello world.".data)
      = highlight_medical_terms "Hello world.".data :=
  ⟨by decide, highlight_idempotent_no_terms "Hello world.".data (by decide)⟩

/-- C3 evaluation at the failing input: the source highlighter registers
each medical term with itself as clean name, so flashtext replaces every
matched term with the term itself and the example sentence comes back
unchanged, not with the emphasis markup the claim requires. -/
theorem highlight_no_markup_at_failing_input :
    highlight_medical_terms "Patient has diabetes and hypertension.".data
      = "Patient has diabetes and hypertension.".data ∧
    highlight_medical_terms "Patient has diabetes and hypertension.".data
      ≠ "Patient has **diabetes** and **hypertension**.".data := by
  constructor
  · decide
  · decide

/-- C4: when the summarization model path fails, summarize_text returns the
first 500 characters of the input, so the result has length at most 500
when the input has length at least 500, and length equal to the input
length otherwise. -/
theorem summarize_fallback_truncates (modelF : PyStr → Except String PyStr)
    (text : PyStr) (e : String) (hfail : modelF text = Except.error e) :
    (summarize_text modelF text).1 = text.take 500 ∧
    ((summarize_text modelF text).1).length = min 500 text.length ∧
    (500 ≤ text.length → ((summarize_text modelF text).1).length ≤ 500) ∧
    (text.length < 500 → ((summarize_text modelF text).1).length = text.length) := by
  unfold summarize_text
  rw [hfail]
  refine ⟨rfl, ?_, ?_, ?_⟩
  · simp [List.length_take]
  · intro _
    simp [List.length_take]
  · intro hlt
    simp [List.length_take]
    omega

/-- Witness for C4 at a concrete failing model and the 5-character input. -/
theorem summarize_fallback_truncates_witness :
    (summarize_text (fun _ => Except.error "oom") "hello".data).1
        = "hello".data.take 500 ∧
    ((summarize_text (fun _ => Except.error "oom") "hello".data).1).length
        = min 500 "hello".data.length :=
  ⟨(summarize_fallback_truncates (fun _ => Except.error "oom") "hello".data "oom" rfl).1,
   (summarize_fallback_truncates (fun _ => Except.error "oom") "hello".data "oom" rfl).2.1⟩

/-- C5: for every non-empty text, summarize_text returns a non-empty
string on both branches: the fallback is the first 500 characters of a
non-empty text, and on the success branch the external model is assumed to
meet its contract (a summary of minimum length 100, hence non-empty). -/
theorem summary_nonempty (modelF : PyStr → Except String PyStr) (text : PyStr)
    (hne : text ≠ [])
    (hcontract : ∀ s, modelF text = Except.ok s → s ≠ []) :
    (summarize_text modelF text).1 ≠ [] := by
  unfold summarize_text
  cases hm : modelF text with
  | ok s => exact hcontract s hm
  | error e =>
    obtain ⟨c, cs, rfl⟩ := List.exists_cons_of_ne_nil hne
    simp

/-- Witness for C5 at a concrete failing model and the input "hi". -/
theorem summary_nonempty_witness :
    "hi".data ≠ [] ∧
    (summarize_text (fun _ => Except.error "down") "hi".data).1 ≠ [] :=
  ⟨by decide,
   summary_nonempty (fun _ => Except.error "down") "hi".data (by decide)
     (fun s h => Except.noConfusion h)⟩

/-- C2 counterexample: with is_scanned false, an exception raised by the
structural extraction is not caught inside extract_text_from_pdf: the
function propagates it to the caller instead of returning the empty
string. -/
theorem extract_exception_propagates_cex :
    (extract_text_from_pdf (Except.error "fitz error") (Except.ok []) false).1
      = Except.error "fitz error" ∧
    (extract_text_from_pdf (Except.error "fitz error") (Except.ok []) false).1
      ≠ Except.ok [] := by
  constructor
  · rfl
  · intro h
    exact Except.noConfusion h

/-- C2 amended: only in the scanned (OCR) branch is an extraction
exception caught, reported with an OCR error message, and turned into the
empty string; in the non-scanned branch the extraction outcome, exception
included, is passed through to the caller unchanged. -/
theorem extract_error_policy_amended (fitz ocr : Except String PyStr) :
    (∀ e, ocr = Except.error e →
      extract_text_from_pdf fitz ocr true = (Except.ok [], ["OCR Error: " ++ e])) ∧
    (∀ t, ocr = Except.ok t →
      extract_text_from_pdf fitz ocr true = (Except.ok t, [])) ∧
    extract_text_from_pdf fitz ocr false = (fitz, []) := by
  refine ⟨?_, ?_, rfl⟩
  · intro e he
    rw [he]
    rfl
  · intro t ht
    rw [ht]
    rfl

/-- Witness for the amended C2 at concrete oracle outcomes. -/
theorem extract_error_policy_amended_witness :
    extract_text_from_pdf (Except.error "f") (Except.error "o") true
      = (Except.ok [], ["OCR Error: " ++ "o"]) ∧
    extract_text_from_pdf (Except.error "f") (Except.error "o") false
      = (Except.error "f", []) :=
  ⟨(extract_error_policy_amended (Except.error "f") (Except.error "o")).1 "o" rfl,
   (extract_error_policy_amended (Except.error "f") (Except.error "o")).2.2⟩

/-- C1: whenever the extracted text is the empty string, none of
summarize_text, highlight_medical_terms, convert_to_braille or
text_to_speech is invoked, the user-visible extraction error is reported,
and the request ends in the Failed state with nothing displayed. -/
theorem empty_text_halts_pipeline (env : Env) (flag : Bool)
    (hext : (extract_text_from_pdf env.fitz env.ocr flag).1 = Except.ok []) :
    Stage.summarizeS ∉ (runPipeline env flag).calls ∧
    Stage.highlightS ∉ (runPipeline env flag).calls ∧
    Stage.brailleS ∉ (runPipeline env flag).calls ∧
    Stage.ttsS ∉ (runPipeline env flag).calls ∧
    "Failed to extract text from document" ∈ (runPipeline env flag).messages ∧
    (runPipeline env flag).final = PipeState.failed ∧
    (runPipeline env flag).displayed = none := by
  rcases hp : extract_text_from_pdf env.fitz env.ocr flag with ⟨res, lg⟩
  rw [hp] at hext
  simp only at hext
  subst hext
  refine ⟨?_, ?_, ?_, ?_, ?_, ?_, ?_⟩ <;>
    simp [runPipeline, runPipelineWith, hp]

/-- Witness for C1: a run whose structural extraction yields the empty
string halts before any downstream stage. -/
theorem empty_text_halts_pipeline_witness :
    Stage.summarizeS ∉ (runPipeline envEmptyText false).calls ∧
    Stage.highlightS ∉ (runPipeline envEmptyText false).calls ∧
    Stage.brailleS ∉ (runPipeline envEmptyText false).calls ∧
    Stage.ttsS ∉ (runPipeline envEmptyText false).calls ∧
    "Failed to extract text from document" ∈ (runPipeline envEmptyText false).messages ∧
    (runPipeline envEmptyText false).final = PipeState.failed ∧
    (runPipeline envEmptyText false).displayed = none :=
  empty_text_halts_pipeline envEmptyText false rfl

/-- C8: on every exit path of a request the temporary document file and any
audio artifact are gone when the request ends, and the only exceptions that
can propagate past the orchestrator uncaught come from the cleanup block
itself, never from a stage (a stage exception is always caught either at
the stage boundary or by the module-level handler). -/
theorem cleanup_and_containment (env : Env) (flag : Bool) :
    (runPipeline env flag).tmpExists = false ∧
    (runPipeline env flag).audioExists = false ∧
    ∀ m, (runPipeline env flag).uncaught ≠ some (PyExc.libErr m) := by
  rcases hp : extract_text_from_pdf env.fitz env.ocr flag with ⟨res, lg⟩
  cases res with
  | error e => simp [runPipeline, runPipelineWith, hp]
  | ok raw =>
    by_cases hE : raw.isEmpty <;>
      simp [runPipeline, runPipelineWith, hp, hE]

/-- Witness for C8 on a fully successful run. -/
theorem cleanup_and_containment_witness :
    (runPipeline envAllOk false).tmpExists = false ∧
    (runPipeline envAllOk false).audioExists = false ∧
    (runPipeline envAllOk false).uncaught ≠ some (PyExc.libErr "boom") :=
  ⟨(cleanup_and_containment envAllOk false).1,
   (cleanup_and_containment envAllOk false).2.1,
   (cleanup_and_containment envAllOk false).2.2 "boom"⟩

/-- C7: two runs that differ only in the highlight vocabulary produce the
same Braille output, the same audio artifact and the same messages: the
vocabulary feeds only the displayed highlighted summary. -/
theorem vocab_noninterference (v1 v2 : List PyStr) (env : Env) (flag : Bool) :
    ((runPipelineWith v1 env flag).displayed).map (fun d => (d.2.1, d.2.2))
      = ((runPipelineWith v2 env flag).displayed).map (fun d => (d.2.1, d.2.2)) ∧
    (runPipelineWith v1 env flag).messages = (runPipelineWith v2 env flag).messages ∧
    (runPipelineWith v1 env flag).audioCreated = (runPipelineWith v2 env flag).audioCreated := by
  rcases hp : extract_text_from_pdf env.fitz env.ocr flag with ⟨res, lg⟩
  cases res with
  | error e => simp [runPipelineWith, hp]
  | ok raw =>
    by_cases hE : raw.isEmpty <;>
      simp [runPipelineWith, hp, hE]

/-- C6: under non-empty extraction the request reaches Done; the displayed
triple decomposes into the three stage functions applied to the one common
summary, so each output slot depends only on its own oracle; and a failure
of the summarizer, the Braille transliterator or the speech synthesizer
yields exactly its documented fallback value together with its user-visible
message, without removing the other two outputs. -/
theorem stage_failure_isolation (env : Env) (flag : Bool) (raw : PyStr)
    (hext : (extract_text_from_pdf env.fitz env.ocr flag).1 = Except.ok raw)
    (hne : raw ≠ []) :
    (runPipeline env flag).final = PipeState.done ∧
    (runPipeline env flag).displayed =
      some (highlight_medical_terms (summarize_text env.model raw).1,
            (convert_to_braille env.louisTr (summarize_text env.model raw).1).1,
            (text_to_speech env.gtts (summarize_text env.model raw).1
              DEFAULT_AUDIO_FILENAME).1) ∧
    (∀ e, env.model raw = Except.error e →
      (summarize_text env.model raw).1 = raw.take 500 ∧
      ("Summarization Error: " ++ e) ∈ (runPipeline env flag).messages) ∧
    (∀ e, env.louisTr (summarize_text env.model raw).1 = Except.error e →
      (convert_to_braille env.louisTr (summarize_text env.model raw).1).1 = [] ∧
      ("Braille Conversion Error: " ++ e) ∈ (runPipeline env flag).messages) ∧
    (∀ e, env.gtts (summarize_text env.model raw).1 = Except.error e →
      (text_to_speech env.gtts (summarize_text env.model raw).1
        DEFAULT_AUDIO_FILENAME).1 = none ∧
      ("Audio Generation Error: " ++ e) ∈ (runPipeline env flag).messages) := by
  rcases hp : extract_text_from_pdf env.fitz env.ocr flag with ⟨res, lg⟩
  rw [hp] at hext
  simp only at hext
  subst hext
  have hE : raw.isEmpty = false := by
    cases raw with
    | nil => exact absurd rfl hne
    | cons a l => rfl
  refine ⟨?_, ?_, ?_, ?_, ?_⟩
  · simp [runPipeline, runPipelineWith, hp, hE]
  · simp [runPipeline, runPipelineWith, hp, hE, highlight_medical_terms]
  · intro e he
    refine ⟨by simp [summarize_text, he], ?_⟩
    simp [runPipeline, runPipelineWith, hp, hE, summarize_text, he]
  · intro e he
    refine ⟨by simp [convert_to_braille, he], ?_⟩
    simp [runPipeline, runPipelineWith, hp, hE, convert_to_braille, he]
  · intro e he
    refine ⟨by simp [text_to_speech, he], ?_⟩
    simp [runPipeline, runPipelineWith, hp, hE, text_to_speech, he]

/-- Witness for C6: a run in which the summarizer, the transliterator and
the synthesizer all fail still reaches Done with all three warnings. -/
theorem stage_failure_isolation_witness :
    (runPipeline envAllFail false).final = PipeState.done ∧
    ("Summarization Error: " ++ "down") ∈ (runPipeline envAllFail false).messages ∧
    ("Braille Conversion Error: " ++ "no table") ∈ (runPipeline envAllFail false).messages ∧
    ("Audio Generation Error: " ++ "no net") ∈ (runPipeline envAllFail false).messages := by
  have h := stage_failure_isolation envAllFail false "hello".data rfl (by decide)
  exact ⟨h.1, (h.2.2.1 "down" rfl).2, (h.2.2.2.1 "no table" rfl).2,
    (h.2.2.2.2 "no net" rfl).2⟩

/-- C10: a successful text_to_speech call returns the constant path
summary.mp3, and in every run of the pipeline the displayed audio slot is
either none or that same constant path, independent of the input and of the
request. -/
theorem audio_path_constant :
    (∀ (g : PyStr → Except String Unit) (t : PyStr), g t = Except.ok () →
      (text_to_speech g t DEFAULT_AUDIO_FILENAME).1 = some "summary.mp3".data) ∧
    (∀ (env : Env) (flag : Bool) (hl b : PyStr) (a : Option PyStr),
      (runPipeline env flag).displayed = some (hl, b, a) →
      a = none ∨ a = some "summary.mp3".data) := by
  constructor
  · intro g t hg
    simp [text_to_speech, hg, DEFAULT_AUDIO_FILENAME]
  · intro env flag hl b a hd
    rcases hp : extract_text_from_pdf env.fitz env.ocr flag with ⟨res, lg⟩
    cases res with
    | error e => simp [runPipeline, runPipelineWith, hp] at hd
    | ok raw =>
      by_cases hE : raw.isEmpty
      · simp [runPipeline, runPipelineWith, hp, hE] at hd
      · simp [runPipeline, runPipelineWith, hp, hE] at hd
        cases hg : env.gtts (summarize_text env.model raw).1 with
        | ok u =>
          right
          rw [← hd.2.2]
          simp [text_to_speech, hg, DEFAULT_AUDIO_FILENAME]
        | error e =>
          left
          rw [← hd.2.2]
          simp [text_to_speech, hg]

/-- Witness for C10 at a concrete successful synthesis call. -/
theorem audio_path_constant_witness :
    (text_to_speech (fun _ => Except.ok ()) "x".data DEFAULT_AUDIO_FILENAME).1
      = some "summary.mp3".data :=
  audio_path_constant.1 (fun _ => Except.ok ()) "x".data rfl
